import Mathlib

/-!
Verification of the core components of the LoiLoi telegram bot repository:
the per-user rate limiter (`src/services/rate_limiter.py`) and the
transient-file lifecycle manager (`src/services/audio_service.py`).

The Python code is shallowly embedded. Time values (`time.time()`,
`st_mtime`) are modelled as integer seconds (`ℤ`): every boundary the
design cares about (strict purge cutoff, the 300-second retention
threshold, floor division by 60) is an integer-seconds phenomenon, and
`int(x)` applied to an integral value is the identity. Python `//` on
integers is floor division, embedded as `Int.fdiv`. Python code that can
raise (e.g. `min([])`, which raises `ValueError`) is embedded with an
`Option` result where `none` marks the raise.
-/

namespace LoiLoi

/-! ## Rate limiter (`src/services/rate_limiter.py`)

`RateLimiter` holds `max_requests`, `window_seconds` and the
`defaultdict`-style mapping from user id to that user's list of request
timestamps (a missing user maps to the empty list, which the function
representation gives for free). -/

structure RateLimiter where
  max_requests : ℕ
  window_seconds : ℤ
  requests : ℤ → List ℤ

/-- Python `min` over a list: raises `ValueError` (here `none`) on the
empty list, otherwise the least element. -/
def pyMin : List ℤ → Option ℤ
  | [] => none
  | h :: t => some (t.foldl min h)

/-- `RateLimiter._cleanup_old_requests` (rate_limiter.py lines 20-25):
`cutoff = now - window_seconds`; keep exactly the timestamps with
`ts > cutoff`, for the given user only. -/
def RateLimiter.cleanup_old_requests (rl : RateLimiter) (now : ℤ) (user : ℤ) : RateLimiter :=
  { rl with requests := fun u =>
      if u = user then
        (rl.requests user).filter (fun ts => decide (now - rl.window_seconds < ts))
      else rl.requests u }

/-- The value `check` computes after the purge (rate_limiter.py lines
36-43), as a function of the configuration and the purged window `w`:
if `len(w) >= max_requests` then `(False, max 1 ((oldest + W - now) // 60))`
with `oldest = min(w)` (raising, i.e. `none`, when `w` is empty),
else `(True, 0)`. -/
def checkResult (maxReq : ℕ) (window : ℤ) (now : ℤ) (w : List ℤ) : Option (Bool × ℤ) :=
  if maxReq ≤ w.length then
    match pyMin w with
    | none => none
    | some oldest => some (false, max 1 (Int.fdiv (oldest + window - now) 60))
  else some (true, 0)

/-- `RateLimiter.check` (rate_limiter.py lines 27-43): purge first (that
state update survives even a raise), then decide admission. The second
component is `none` exactly when the Python code raises. -/
def RateLimiter.check (rl : RateLimiter) (now : ℤ) (user : ℤ) :
    RateLimiter × Option (Bool × ℤ) :=
  (rl.cleanup_old_requests now user,
   checkResult rl.max_requests rl.window_seconds now
     ((rl.cleanup_old_requests now user).requests user))

/-- `RateLimiter.record` (rate_limiter.py lines 45-47): append the current
timestamp to the user's window. -/
def RateLimiter.record (rl : RateLimiter) (now : ℤ) (user : ℤ) : RateLimiter :=
  { rl with requests := fun u =>
      if u = user then rl.requests user ++ [now] else rl.requests u }

/-- A limiter configured with `max_requests = 0` and no recorded requests. -/
def rlZero : RateLimiter := ⟨0, 3600, fun _ => []⟩

/-- A limiter configured with `max_requests = 1` and no recorded requests. -/
def rlOne : RateLimiter := ⟨1, 3600, fun _ => []⟩

/-- A limiter configured with `max_requests = 1` where every user has one
request recorded at time 0. -/
def rlBusy : RateLimiter := ⟨1, 3600, fun _ => [0]⟩

theorem cleanup_requests_self (rl : RateLimiter) (now user : ℤ) :
    (rl.cleanup_old_requests now user).requests user
      = (rl.requests user).filter (fun ts => decide (now - rl.window_seconds < ts)) := by
  simp [RateLimiter.cleanup_old_requests]

theorem cleanup_idem (rl : RateLimiter) (now user : ℤ) :
    (rl.cleanup_old_requests now user).cleanup_old_requests now user
      = rl.cleanup_old_requests now user := by
  unfold RateLimiter.cleanup_old_requests
  congr 1
  funext u
  by_cases hu : u = user
  · subst hu
    simp [List.filter_filter]
  · simp [hu]

/-- Claim C1 (counterexample): with `max_requests = 0` the claim's clause
"an empty window after purge always yields allowed = true" is false: for
`rlZero` at time 0 the post-purge window of user 0 is empty, yet `check`
does not return `allowed = true` — it raises (`min([])`), modelled as a
`none` result. -/
theorem check_empty_window_not_allowed_cex :
    (rlZero.check 0 0).1.requests 0 = [] ∧ (rlZero.check 0 0).2 = none := by
  constructor
  · rfl
  · rfl

/-- Claim C1 (amended): `check(user)` first purges that user's timestamps
older than the window (a timestamp exactly `window_seconds` old is
purged, i.e. exactly those with `ts > now - W` remain); whenever `check`
returns a pair, `allowed = true` iff the number of remaining timestamps
is strictly less than `max_requests`; and, provided `max_requests ≥ 1`,
an empty window after purge yields `allowed = true` (with
`max_requests = 0` and an empty post-purge window, `check` raises
instead of returning). -/
theorem check_purge_and_admission (rl : RateLimiter) (now user : ℤ) :
    ((rl.check now user).1.requests user
        = (rl.requests user).filter (fun ts => decide (now - rl.window_seconds < ts)))
    ∧ (∀ b m, (rl.check now user).2 = some (b, m) →
        (b = true ↔ ((rl.check now user).1.requests user).length < rl.max_requests))
    ∧ (1 ≤ rl.max_requests → (rl.check now user).1.requests user = [] →
        (rl.check now user).2 = some (true, 0)) := by
  refine ⟨cleanup_requests_self rl now user, ?_, ?_⟩
  · intro b m h
    show b = true ↔ ((rl.cleanup_old_requests now user).requests user).length < rl.max_requests
    unfold RateLimiter.check checkResult at h
    split at h
    · next hfull =>
      split at h
      · exact absurd h (by simp)
      · simp only [Option.some.injEq, Prod.mk.injEq] at h
        rw [← h.1]
        simp only [Bool.false_eq_true, false_iff, not_lt]
        exact hfull
    · next hfree =>
      simp only [Option.some.injEq, Prod.mk.injEq] at h
      rw [← h.1]
      simp only [true_iff]
      omega
  · intro hN hw
    show checkResult rl.max_requests rl.window_seconds now
        ((rl.cleanup_old_requests now user).requests user) = some (true, 0)
    have hw' : (rl.cleanup_old_requests now user).requests user = [] := hw
    rw [hw']
    unfold checkResult
    rw [if_neg (by simp only [List.length_nil]; omega)]

/-- Claim C1 (witness): for `rlOne` (limit 1, nothing recorded) at time 0
the post-purge window is empty and `check` returns `(True, 0)`; the
admission iff instantiated at that result holds. -/
theorem check_purge_and_admission_witness :
    (rlOne.check 0 0).2 = some (true, 0)
    ∧ (true = true ↔ ((rlOne.check 0 0).1.requests 0).length < rlOne.max_requests) := by
  have h := (check_purge_and_admission rlOne 0 0).2.2 (by decide) (by rfl)
  exact ⟨h, (check_purge_and_admission rlOne 0 0).2.1 true 0 h⟩

/-- Claim C2 (counterexample): `rlBusy` has `max_requests = 1`,
`window_seconds = 3600` and one request at time 0. At `now = 3510` the
remaining wait is `oldest + W - now = 90` seconds — strictly between 60
and 120 — so the claim demands `retry_after_minutes = 2`, but the code
returns `max(1, 90 // 60) = 1`. -/
theorem check_retry_after_ceil_cex :
    (rlBusy.check 3510 0).2 = some (false, 1)
    ∧ (0:ℤ) + rlBusy.window_seconds - 3510 = 90
    ∧ (60:ℤ) < 90 ∧ (90:ℤ) < 120 ∧ (1:ℤ) ≠ 2 := by
  refine ⟨by rfl, by decide, by decide, by decide, by decide⟩

/-- Claim C2 (amended): when the post-purge window holds at least
`max_requests` timestamps, `check` returns `retry_after_minutes =
max(1, (oldest + W - now) // 60)` — floor division of the remaining
seconds by 60 (Python `int()` truncation followed by `//`), not a
ceiling; a wait strictly between 60 and 120 seconds therefore yields 1,
not 2. -/
theorem check_retry_after_floor (rl : RateLimiter) (now user oldest : ℤ)
    (hfull : rl.max_requests ≤ ((rl.cleanup_old_requests now user).requests user).length)
    (hmin : pyMin ((rl.cleanup_old_requests now user).requests user) = some oldest) :
    (rl.check now user).2
      = some (false, max 1 (Int.fdiv (oldest + rl.window_seconds - now) 60)) := by
  show checkResult rl.max_requests rl.window_seconds now
      ((rl.cleanup_old_requests now user).requests user) = _
  unfold checkResult
  rw [if_pos hfull, hmin]

/-- Claim C2 (witness): the amended formula applied to the concrete
90-second-wait state `rlBusy` at `now = 3510`. -/
theorem check_retry_after_floor_witness :
    (rlBusy.check 3510 0).2
      = some (false, max 1 (Int.fdiv ((0:ℤ) + rlBusy.window_seconds - 3510) 60)) :=
  check_retry_after_floor rlBusy 3510 0 0 (by decide) (by rfl)

/-- Claim C3 (code bug, evaluated at the failing input): with
`max_requests = 0` and an empty window, `check` is not total — the code
reaches `min(self._requests[user_id])` on an empty list and raises
`ValueError` (modelled as `none`), instead of returning
`(False, retry)`. The purge side effect still happens first. -/
theorem check_raises_on_zero_limit_empty :
    (rlZero.check 0 0).2 = none ∧ (rlZero.check 0 0).1.max_requests = 0 := by
  exact ⟨rfl, rfl⟩

/-- Claim C4: whenever `check` returns `allowed = false`, the returned
`retry_after_minutes` is at least 1 (`max(1, ...)` in the source). -/
theorem retry_after_ge_one (rl : RateLimiter) (now user : ℤ) (m : ℤ)
    (h : (rl.check now user).2 = some (false, m)) : 1 ≤ m := by
  unfold RateLimiter.check checkResult at h
  split at h
  · split at h
    · exact absurd h (by simp)
    · simp only [Option.some.injEq, Prod.mk.injEq] at h
      rw [← h.2]
      exact le_max_left 1 _
  · simp at h

/-- Claim C4 (witness): `rlBusy` checked at time 10 is denied with
`retry_after_minutes = 59 ≥ 1`. -/
theorem retry_after_ge_one_witness :
    1 ≤ (59:ℤ) ∧ (rlBusy.check 10 0).2 = some (false, 59) :=
  ⟨retry_after_ge_one rlBusy 10 0 59 (by rfl), by rfl⟩

/-- Claim C5: `check` is idempotent when repeated at the same time with
no intervening `record`: the second call returns the same result and
leaves the state exactly as the first call left it (the first purge
already removed every expired entry and nothing else). -/
theorem check_idempotent (rl : RateLimiter) (now user : ℤ) :
    (((rl.check now user).1).check now user).2 = (rl.check now user).2
    ∧ (((rl.check now user).1).check now user).1 = (rl.check now user).1 := by
  have h := cleanup_idem rl now user
  constructor
  · show checkResult (rl.cleanup_old_requests now user).max_requests
        (rl.cleanup_old_requests now user).window_seconds now
        (((rl.cleanup_old_requests now user).cleanup_old_requests now user).requests user)
      = checkResult rl.max_requests rl.window_seconds now
        ((rl.cleanup_old_requests now user).requests user)
    rw [h]
    rfl
  · show (rl.cleanup_old_requests now user).cleanup_old_requests now user
      = rl.cleanup_old_requests now user
    exact h

/-! ## File lifecycle manager (`src/services/audio_service.py`)

The working directory is modelled as a list of directory entries (what
`Path(TEMP_DIR).glob("*")` yields), each with a path, an `is_file` flag
and a modification time in integer seconds. -/

structure FsEntry where
  path : String
  is_file : Bool
  mtime : ℤ
deriving DecidableEq

/-- `_sync_cleanup_temp_files` (audio_service.py lines 101-120) on the
fault-free path: `cutoff_time = now - 300`; iterate over the directory,
unlink every regular file with `st_mtime < cutoff_time` and count it,
leave everything else in place. Returns the remaining directory and the
count of removed files. -/
def sync_cleanup_temp_files (now : ℤ) : List FsEntry → List FsEntry × ℕ
  | [] => ([], 0)
  | e :: rest =>
      let r := sync_cleanup_temp_files now rest
      if e.is_file = true ∧ e.mtime < now - 300 then (r.1, r.2 + 1)
      else (e :: r.1, r.2)

/-- Claim C6: the sweep removes exactly the regular files whose
modification time is strictly older than the 300-second retention
threshold (`mtime < now - 300`); every entry with `mtime ≥ now - 300`,
and every non-file entry, is kept in place; and the returned count is
the number of removed files. -/
theorem sweep_removes_exactly_old (now : ℤ) (dir : List FsEntry) :
    (sync_cleanup_temp_files now dir).1
        = dir.filter (fun e => !(e.is_file && decide (e.mtime < now - 300)))
    ∧ (sync_cleanup_temp_files now dir).2
        = (dir.filter (fun e => e.is_file && decide (e.mtime < now - 300))).length := by
  induction dir with
  | nil => exact ⟨rfl, rfl⟩
  | cons e rest ih =>
      unfold sync_cleanup_temp_files
      by_cases he : e.is_file = true ∧ e.mtime < now - 300
      · rw [if_pos he]
        constructor
        · simpa [List.filter_cons, he.1, he.2] using ih.1
        · simpa [List.filter_cons, he.1, he.2] using ih.2
      · rw [if_neg he]
        rw [Classical.not_and_iff_or_not_not] at he
        rcases he with he | he
        · constructor
          · simpa [List.filter_cons, he] using ih.1
          · simpa [List.filter_cons, he] using ih.2
        · constructor
          · simpa [List.filter_cons, he] using ih.1
          · simpa [List.filter_cons, he] using ih.2

/-- `cleanup_temp_files_async` (audio_service.py lines 123-133) acting on
the module-level `_processed_files_count`: increment, return early with
no sweep while `count < TEMP_CLEANUP_AFTER_FILES`, otherwise reset the
counter to zero and then dispatch a sweep to the executor. The returned
Bool records whether a sweep was dispatched. -/
def cleanup_temp_files_async (threshold : ℕ) (counter : ℕ) : ℕ × Bool :=
  let c := counter + 1
  if c < threshold then (c, false) else (0, true)

/-- `k` successive calls of `cleanup_temp_files_async` starting from
counter 0: final counter value and total number of sweeps dispatched. -/
def tickTrace (threshold : ℕ) : ℕ → ℕ × ℕ
  | 0 => (0, 0)
  | k + 1 =>
      let s := tickTrace threshold k
      let t := cleanup_temp_files_async threshold s.1
      (t.1, s.2 + (if t.2 then 1 else 0))

/-- Claim C7: starting from counter 0 with threshold `n ≥ 1`, each of the
first `n - 1` tick calls just increments the counter (after `k < n`
ticks the counter is `k`) and dispatches no sweep; the `n`-th tick
dispatches exactly one sweep and leaves the counter at zero; and a
single tick dispatches a sweep exactly when the incremented counter
reaches the threshold. -/
theorem tick_trace_spec (n : ℕ) (hn : 1 ≤ n) :
    (∀ k, k < n → tickTrace n k = (k, 0))
    ∧ tickTrace n n = (0, 1)
    ∧ (∀ c, (cleanup_temp_files_async n c).2 = true ↔ n ≤ c + 1) := by
  have hstep : ∀ k, k < n → tickTrace n k = (k, 0) := by
    intro k
    induction k with
    | zero => intro _; rfl
    | succ j ih =>
        intro hj
        have hj' : j < n := Nat.lt_of_succ_lt hj
        unfold tickTrace
        rw [ih hj']
        unfold cleanup_temp_files_async
        simp only []
        rw [if_pos hj]
        simp
  refine ⟨hstep, ?_, ?_⟩
  · obtain ⟨m, rfl⟩ : ∃ m, n = m + 1 := ⟨n - 1, by omega⟩
    unfold tickTrace
    rw [hstep m (by omega)]
    unfold cleanup_temp_files_async
    simp only []
    rw [if_neg (by omega)]
    simp
  · intro c
    unfold cleanup_temp_files_async
    simp only []
    by_cases hc : c + 1 < n
    · rw [if_pos hc]
      simp only [Bool.false_eq_true, false_iff]
      omega
    · rw [if_neg hc]
      simp only [true_iff]
      omega

/-- Claim C7 (witness): with the default threshold 10, nine ticks leave
the counter at 9 with no sweep, and the tenth tick resets it to 0 having
dispatched exactly one sweep. -/
theorem tick_trace_spec_witness :
    tickTrace 10 9 = (9, 0) ∧ tickTrace 10 10 = (0, 1) := by
  have h := tick_trace_spec 10 (by decide)
  exact ⟨h.1 9 (by decide), h.2.1⟩

/-- Claim C9: for any threshold `n ≥ 1` and any counter value, after a
tick call returns the counter is strictly below the threshold (and, it
being a natural number, at least 0); on a triggering call the returned
counter is zero — in the source the reset `_processed_files_count = 0`
precedes the `_executor.submit` dispatch. -/
theorem tick_counter_invariant (n : ℕ) (hn : 1 ≤ n) (c : ℕ) :
    (cleanup_temp_files_async n c).1 < n
    ∧ ((cleanup_temp_files_async n c).2 = true → (cleanup_temp_files_async n c).1 = 0) := by
  unfold cleanup_temp_files_async
  simp only []
  by_cases hc : c + 1 < n
  · rw [if_pos hc]
    exact ⟨hc, by simp⟩
  · rw [if_neg hc]
    exact ⟨by omega, fun _ => rfl⟩

/-- Claim C9 (witness): threshold 10, counter 9 — the tick triggers, the
returned counter is 0 and satisfies the invariant. -/
theorem tick_counter_invariant_witness :
    (cleanup_temp_files_async 10 9).1 < 10 ∧ (cleanup_temp_files_async 10 9).1 = 0 := by
  have h := tick_counter_invariant 10 (by decide) 9
  exact ⟨h.1, h.2 (by decide)⟩

/-- `_sync_delete_file` (audio_service.py lines 144-155). The filesystem
is a list of existing paths; `os.path.exists` is membership. The
`os.remove` call is abstracted by `removeOp`, which may fail with an
OS error (`Except.error`); the `try/except` swallows that error and
returns with the filesystem as it was, only logging. The function's
return type carries no error channel: no failure reaches the caller. -/
def sync_delete_file (removeOp : List String → String → Except String (List String))
    (fs : List String) (p : String) : List String :=
  if p ∈ fs then
    match removeOp fs p with
    | Except.ok fs2 => fs2
    | Except.error _ => fs
  else fs

/-- Claim C8: `delete` never surfaces a failure: a nonexistent path is a
no-op success; when the underlying remove fails with any error the
error is swallowed and the caller sees a normal return; and on success
the result is whatever the remove produced. -/
theorem delete_swallows_errors
    (removeOp : List String → String → Except String (List String))
    (fs : List String) (p : String) :
    (p ∉ fs → sync_delete_file removeOp fs p = fs)
    ∧ (∀ e, removeOp fs p = Except.error e → sync_delete_file removeOp fs p = fs)
    ∧ (∀ fs2, p ∈ fs → removeOp fs p = Except.ok fs2 →
        sync_delete_file removeOp fs p = fs2) := by
  refine ⟨?_, ?_, ?_⟩
  · intro hp
    unfold sync_delete_file
    rw [if_neg hp]
  · intro e he
    unfold sync_delete_file
    by_cases hp : p ∈ fs
    · rw [if_pos hp, he]
    · rw [if_neg hp]
  · intro fs2 hp hok
    unfold sync_delete_file
    rw [if_pos hp, hok]

/-- Claim C8 (witness): with a remove operation that always fails, a
nonexistent path returns the filesystem unchanged, and an existing path
whose removal errors also returns it unchanged — no error escapes. -/
theorem delete_swallows_errors_witness :
    sync_delete_file (fun _ _ => Except.error "eperm") ["a.ogg"] "b.ogg" = ["a.ogg"]
    ∧ sync_delete_file (fun _ _ => Except.error "eperm") ["a.ogg"] "a.ogg" = ["a.ogg"] :=
  ⟨(delete_swallows_errors (fun _ _ => Except.error "eperm") ["a.ogg"] "b.ogg").1
      (by decide),
   (delete_swallows_errors (fun _ _ => Except.error "eperm") ["a.ogg"] "a.ogg").2.1
      "eperm" rfl⟩

/-- Python truthiness of an optional string argument: `None` and the
empty string are falsy. -/
def pyTruthy : Option String → Bool
  | none => false
  | some s => !s.isEmpty

/-- `delete_files` (audio_service.py lines 158-162): for each argument in
order, schedule a deletion (`_executor.submit(_sync_delete_file, path)`)
only when the argument is truthy. Returns the list of paths for which a
deletion was scheduled, in submission order. -/
def delete_files : List (Option String) → List String
  | [] => []
  | p :: rest =>
      match p with
      | some s => if s.isEmpty then delete_files rest else s :: delete_files rest
      | none => delete_files rest

theorem delete_files_eq_filterMap (paths : List (Option String)) :
    delete_files paths
      = paths.filterMap (fun q => q.bind (fun s => if s.isEmpty then none else some s)) := by
  induction paths with
  | nil => rfl
  | cons p rest ih =>
      cases p with
      | none => simpa [delete_files, List.filterMap_cons] using ih
      | some s =>
          by_cases hs : s.isEmpty
          · simpa [delete_files, List.filterMap_cons, hs] using ih
          · simpa [delete_files, List.filterMap_cons, hs] using ih

/-- Claim C10: `delete_files` schedules deletions exactly for the truthy
arguments (non-empty strings), in order; inserting a falsy argument
(`None` or the empty string) anywhere causes no deletion attempt and
leaves the handling of the other arguments unchanged. -/
theorem delete_files_skips_falsy (xs ys : List (Option String)) (p : Option String)
    (hp : pyTruthy p = false) :
    delete_files (xs ++ p :: ys) = delete_files (xs ++ ys)
    ∧ delete_files (xs ++ p :: ys)
        = (xs ++ p :: ys).filterMap
            (fun q => q.bind (fun s => if s.isEmpty then none else some s)) := by
  refine ⟨?_, delete_files_eq_filterMap _⟩
  rw [delete_files_eq_filterMap, delete_files_eq_filterMap]
  cases p with
  | none => simp
  | some s =>
      have hs : s.isEmpty = true := by
        unfold pyTruthy at hp
        simpa using hp
      simp [hs]

/-- Claim C10 (witness): among `["a.ogg", "", None, "b.ogg"]` exactly the
two non-empty strings are scheduled, and dropping the empty string
changes nothing. -/
theorem delete_files_skips_falsy_witness :
    delete_files [some "a.ogg", some "", none, some "b.ogg"]
      = delete_files [some "a.ogg", none, some "b.ogg"] :=
  (delete_files_skips_falsy [some "a.ogg"] [none, some "b.ogg"] (some "") (by rfl)).1

end LoiLoi
